import Mathlib

/-!
Verification development for the `multi-tool` HTTP service (`src/main.py`).

The service exposes four endpoints (video download, QR generation,
text-to-speech, background removal).  We give a shallow embedding of the
request-handling logic that the frozen claims are about:

* `generate_qr_code`   — `POST /api/generate-qr`   (main.py lines 339-374)
* `text_to_speech`     — `POST /api/text-to-speech` (main.py lines 377-444)
* `download_video_sync`— the blocking work function (main.py lines 85-170)
* `download_video`     — `POST /api/download-video` (main.py lines 209-336)
* `cleanupPathsE`      — the deferred cleanup loop of `CleanupFileResponse.__call__`
                         (main.py lines 287-300)

Python strings are modelled by Lean `String`; `len` on a Python `str` counts
code points, which matches `String.length`.  Python's `str.lower`, `str.strip`
and `str.isalnum` are Unicode-aware; the embedding uses the corresponding
ASCII-complete Lean character functions, which agree on every string the
handler logic compares against (all patterns are ASCII).  The filesystem is
modelled as a pair of lists of paths (existing files, existing directories).
Wall-clock time is modelled in whole seconds.
-/

/-- `isPrefixB pre l` : `pre` is a prefix of `l` (Python `str.startswith`). -/
def isPrefixB : List Char → List Char → Bool
  | [], _ => true
  | _ :: _, [] => false
  | a :: as, b :: bs => a == b && isPrefixB as bs

/-- `containsB pat hay` : `pat` occurs as a contiguous substring of `hay`
(Python's `pat in hay`). -/
def containsB (pat : List Char) : List Char → Bool
  | [] => pat.isEmpty
  | c :: rest => isPrefixB pat (c :: rest) || containsB pat rest

/-- Python `pat in hay` on strings. -/
def strContains (hay pat : String) : Bool := containsB pat.toList hay.toList

/-- Python `s.startswith(pre)`. -/
def strStartsWith (s pre : String) : Bool := isPrefixB pre.toList s.toList

/-- Python `s.lower()` (ASCII case folding; every pattern compared against in
the handlers is ASCII). -/
def strLower (s : String) : String := String.mk (s.toList.map Char.toLower)

/-- Python `not s.strip()` : `s` is empty or consists only of whitespace. -/
def stripEmpty (s : String) : Bool := s.toList.all Char.isWhitespace

/-- A FastAPI `HTTPException(status_code=..., detail=...)`. -/
structure HTTPError where
  status : Nat
  detail : String
  deriving DecidableEq

/-! ## QR endpoint (`generate_qr_code`, main.py lines 339-374) -/

/-- Request body of `POST /api/generate-qr` (`QRCodeRequest`); `size` and
`border` are arbitrary Python ints. -/
structure QRCodeRequest where
  text : String
  size : Int
  border : Int
  deriving DecidableEq

/-- The QR image constructed by the `qrcode` library, recorded with the
parameters the endpoint passes to it.  Constructing this value models the
QR-generation work; the validation branches never construct one. -/
structure QRImage where
  boxSize : Int
  border : Int
  data : String
  deriving DecidableEq

/-- `POST /api/generate-qr` handler (main.py lines 339-374).  Validation
happens first; the `qrcode` library call is modelled by building `QRImage`
with exactly the clamped parameters of lines 350-355. -/
def generate_qr_code (req : QRCodeRequest) : Except HTTPError QRImage :=
  if req.text.length > 2000 then
    Except.error ⟨400, "Text too long (max 2000 characters)"⟩
  else if stripEmpty req.text then
    Except.error ⟨400, "Text cannot be empty"⟩
  else
    Except.ok { boxSize := max 5 (min 20 req.size)
                border := max 1 (min 10 req.border)
                data := req.text }

/-! ## TTS endpoint (`text_to_speech`, main.py lines 377-444) -/

/-- Request body of `POST /api/text-to-speech` (`TextToSpeechRequest`). -/
structure TextToSpeechRequest where
  text : String
  language : String
  slow : Bool
  deriving DecidableEq

/-- A `gTTS(text=..., lang=..., slow=...)` synthesis call; constructed only
when the handler actually invokes synthesis. -/
structure TTSCall where
  text : String
  lang : String
  slow : Bool
  deriving DecidableEq

/-- Allow-list of main.py line 390. -/
def valid_languages : List String :=
  ["en", "en-gb", "es", "fr", "de", "it", "pt", "ja", "ko", "zh"]

/-- `POST /api/text-to-speech` handler (main.py lines 377-444): length check,
strip-emptiness check, language defaulting, then synthesis. -/
def text_to_speech (req : TextToSpeechRequest) : Except HTTPError TTSCall :=
  if req.text.length > 5000 then
    Except.error ⟨400, "Text too long (max 5000 characters)"⟩
  else if stripEmpty req.text then
    Except.error ⟨400, "Text cannot be empty"⟩
  else
    let language := if valid_languages.contains req.language then req.language else "en"
    Except.ok ⟨req.text, language, req.slow⟩

/-! ## Filesystem model

The on-disk state touched by the video endpoint: a set of existing file paths
and a set of existing directory paths, each modelled as a list. -/

structure FS where
  files : List String
  dirs : List String
  deriving DecidableEq

/-- Python `os.path.exists(p)`. -/
def FS.existsP (fs : FS) (p : String) : Prop := p ∈ fs.files ∨ p ∈ fs.dirs

instance (fs : FS) (p : String) : Decidable (fs.existsP p) :=
  inferInstanceAs (Decidable (_ ∨ _))

/-- Python `os.path.isfile(p)`. -/
def FS.isfile (fs : FS) (p : String) : Prop := p ∈ fs.files

instance (fs : FS) (p : String) : Decidable (fs.isfile p) :=
  inferInstanceAs (Decidable (_ ∈ _))

/-- Python `os.path.isdir(p)`. -/
def FS.isdir (fs : FS) (p : String) : Prop := p ∈ fs.dirs

instance (fs : FS) (p : String) : Decidable (fs.isdir p) :=
  inferInstanceAs (Decidable (_ ∈ _))

/-- Creating a file (e.g. `tempfile.NamedTemporaryFile`, or yt-dlp writing
its output). -/
def FS.createFile (fs : FS) (p : String) : FS :=
  { fs with files := p :: fs.files }

/-- Creating a directory (`tempfile.mkdtemp`). -/
def FS.mkdir (fs : FS) (d : String) : FS :=
  { fs with dirs := d :: fs.dirs }

/-- `p` lies at or below directory `d` (equal to `d`, or starting with
`d ++ "/"`). -/
def underDir (d p : String) : Bool :=
  decide (p = d) || isPrefixB (d ++ "/").toList p.toList

/-- Python `os.unlink p` / `os.remove p` on an existing file. -/
def FS.unlink (fs : FS) (p : String) : FS :=
  { fs with files := fs.files.filter (fun q => decide (q ≠ p)) }

/-- Python `shutil.rmtree d`: removes the directory and everything below it. -/
def FS.rmtree (fs : FS) (d : String) : FS :=
  { files := fs.files.filter (fun q => !(underDir d q))
    dirs := fs.dirs.filter (fun q => !(underDir d q)) }

/-- Well-formedness: no path is simultaneously a file and a directory. -/
def FS.WF (fs : FS) : Prop := ∀ p ∈ fs.files, p ∉ fs.dirs

instance (fs : FS) : Decidable fs.WF :=
  inferInstanceAs (Decidable (∀ p ∈ fs.files, p ∉ fs.dirs))

/-! ## Deferred cleanup (`CleanupFileResponse.__call__`, main.py lines 287-300)

The loop body deletes each path only when it still exists (`os.path.exists`
guard, then `os.unlink` for files / `shutil.rmtree` for directories).  To
express "no error, no double delete", the raw deletions are modelled in
`Except`: deleting a path that does not exist is an error (`ENOENT`), exactly
what `os.unlink`/`shutil.rmtree` would raise without the guard.  (The source
additionally wraps each attempt in a `try/except` that only logs; the theorems
show the `exists` guard alone already prevents any error.) -/

/-- `os.unlink`, failing on a missing file. -/
def unlinkE (fs : FS) (p : String) : Except String FS :=
  if fs.isfile p then Except.ok (fs.unlink p) else Except.error "ENOENT"

/-- `shutil.rmtree`, failing on a missing directory. -/
def rmtreeE (fs : FS) (d : String) : Except String FS :=
  if fs.isdir d then Except.ok (fs.rmtree d) else Except.error "ENOENT"

/-- One iteration of the cleanup loop (main.py lines 292-298):
`if os.path.exists(path): if os.path.isfile(path): os.unlink(path)
elif os.path.isdir(path): shutil.rmtree(path)`. -/
def cleanupStep (fs : FS) (p : String) : Except String FS :=
  if fs.existsP p then
    if fs.isfile p then unlinkE fs p
    else if fs.isdir p then rmtreeE fs p
    else Except.ok fs
  else Except.ok fs

/-- The full cleanup loop over `self.cleanup_paths`. -/
def cleanupPathsE (paths : List String) (fs : FS) : Except String FS :=
  match paths with
  | [] => Except.ok fs
  | p :: rest =>
    match cleanupStep fs p with
    | Except.ok fs2 => cleanupPathsE rest fs2
    | Except.error e => Except.error e

/-! ## Video download (`download_video_sync`, main.py lines 85-170)

yt-dlp is an external collaborator.  Its behaviour on one request is modelled
by `YdlResult`: either the metadata of the video (first `extract_info` call)
together with the outcome of the actual download, or a
`yt_dlp.utils.DownloadError`, or some other exception.  Absent/`None` numeric
metadata is encoded as `0`, matching Python truthiness (`info.get('duration', 0)`,
`info.get('filesize') or info.get('filesize_approx')`). -/

structure YdlInfo where
  duration : Nat
  filesize : Nat
  filesizeApprox : Nat
  title : String
  ext : String
  deriving DecidableEq

inductive YdlResult where
  /-- Metadata extraction succeeded; `path` is `ydl.prepare_filename(info)`
  (inside the job's temp directory), `fileOk` whether the download actually
  produced that file, `size` its byte size. -/
  | success (info : YdlInfo) (path : String) (fileOk : Bool) (size : Nat)
  /-- A `yt_dlp.utils.DownloadError` with the given message. -/
  | downloadError (msg : String)
  /-- Any other exception with the given message. -/
  | otherError (msg : String)
  deriving DecidableEq

/-- The blocking work function run in the thread pool (main.py lines 85-170):
duration and metadata-size pre-checks, download, existence/emptiness/actual
size post-checks (deleting an oversized file), and remapping of
`DownloadError` messages.  Returns the raised exception message or
`(downloaded_path, info)`, together with the filesystem it leaves behind. -/
def download_video_sync (_url _quality : String) (ydl : YdlResult) (fs : FS) :
    Except String (String × YdlInfo) × FS :=
  match ydl with
  | YdlResult.downloadError msg =>
    if strContains msg "Video unavailable" then
      (Except.error "Video is unavailable or private", fs)
    else if strContains msg "Unsupported URL" then
      (Except.error "Unsupported video site or URL format", fs)
    else if strContains msg "Copyright" then
      (Except.error "Video is copyrighted and cannot be downloaded", fs)
    else
      (Except.error ("Download failed: " ++ msg), fs)
  | YdlResult.otherError msg => (Except.error msg, fs)
  | YdlResult.success info path fileOk size =>
    if info.duration > 600 then
      (Except.error "Video too long (max 10 minutes allowed)", fs)
    else
      let meta := if info.filesize ≠ 0 then info.filesize else info.filesizeApprox
      if meta > 100 * 1024 * 1024 then
        (Except.error "Video file too large (max 100MB)", fs)
      else
        let fsD := if fileOk then fs.createFile path else fs
        if !fileOk then
          (Except.error "Downloaded file not found", fsD)
        else if size = 0 then
          (Except.error "Downloaded file is empty", fsD)
        else if size > 100 * 1024 * 1024 then
          (Except.error "Downloaded file too large", fsD.unlink path)
        else
          (Except.ok (path, info), fsD)

/-- URL scheme validation of main.py line 219:
`request.url.startswith(('http://', 'https://'))`. -/
def validUrl (url : String) : Bool :=
  strStartsWith url "http://" || strStartsWith url "https://"

/-- main.py line 223. -/
def blocked_patterns : List String := ["facebook.com", "tiktok.com"]

/-- main.py line 224: `any(pattern in request.url.lower() for pattern in
blocked_patterns)`. -/
def isBlocked (url : String) : Bool :=
  blocked_patterns.any (fun pat => strContains (strLower url) pat)

/-- Error-message classification of main.py lines 250-263 (inspects the
lowercased message of the exception raised around the executor call). -/
def classifyError (msg : String) : HTTPError :=
  let m := strLower msg
  if strContains m "timeout" then
    ⟨408, "Download timeout - please try a shorter video"⟩
  else if strContains m "too large" then
    ⟨413, "Video file is too large (max 100MB)"⟩
  else if strContains m "too long" then
    ⟨413, "Video is too long (max 10 minutes)"⟩
  else if strContains m "unavailable" then
    ⟨404, "Video is unavailable or private"⟩
  else if strContains m "unsupported" then
    ⟨400, "Unsupported video site or URL format"⟩
  else if strContains m "copyright" then
    ⟨403, "Video is copyrighted and cannot be downloaded"⟩
  else
    ⟨400, "Download failed: " ++ msg⟩

/-- Filename sanitizing of main.py lines 274-276: keep the first 30 title
characters that are alphanumeric or in `' '`, `'-'`, `'_'`, strip trailing
whitespace, default to `"download"`. -/
def safeTitle (title : String) : String :=
  let kept := (title.toList.take 30).filter
    (fun c => c.isAlphanum || c == ' ' || c == '-' || c == '_')
  let stripped := (kept.reverse.dropWhile Char.isWhitespace).reverse
  if stripped.isEmpty then "download" else String.mk stripped

/-- Error-path cleanup of main.py lines 310-336 (both `except` arms): the
temp response file is `None` on every path that raises, so only the temp
directory is checked and removed (`shutil.rmtree` wrapped in a logging
`try/except`, modelled as total). -/
def cleanupOnErr (fs : FS) (tmpdir : String) : FS :=
  if fs.existsP tmpdir then fs.rmtree tmpdir else fs

/-- The inputs determining one run of the `download_video` handler: the
request fields, the behaviour of yt-dlp on this request, the wall-clock
seconds the awaited executor call takes until it returns (the handler blocks
on `await loop.run_in_executor(...)` for exactly that long), and the fresh
paths `tempfile.mkdtemp` / `tempfile.NamedTemporaryFile` would hand out. -/
structure DVInput where
  url : String
  quality : String
  ydl : YdlResult
  workDuration : Nat
  tmpdir : String
  tempFilePath : String
  deriving DecidableEq

/-- A successful `CleanupFileResponse` (main.py lines 302-308). -/
structure DVResponse where
  path : String
  filename : String
  cleanupPaths : List String
  deriving DecidableEq

/-- Observable outcome of one `download_video` request. -/
structure DVTrace where
  /-- The HTTP response: a `CleanupFileResponse` or a raised `HTTPException`. -/
  result : Except HTTPError DVResponse
  /-- Filesystem state at the moment the handler returns. -/
  fs : FS
  /-- Whether the work function was submitted to the executor. -/
  workSubmitted : Bool
  /-- Whether `tempfile.mkdtemp` was called. -/
  tmpdirCreated : Bool
  /-- Seconds after `start_time` at which the handler returns (validation
  failures return immediately; otherwise the handler has awaited the executor
  call to completion, so it returns at `workDuration`). -/
  returnTime : Nat

/-- `POST /api/download-video` handler (main.py lines 209-336): URL
validation, blocked-pattern check, temp-directory creation, the executor
call, the post-hoc 120-second timeout check of lines 241-243, error
classification and error-path cleanup, and on success the creation of the
response temp file and the `CleanupFileResponse` carrying
`cleanup_paths=[temp_file_path, tmpdir]`. -/
def download_video (inp : DVInput) (fs : FS) : DVTrace :=
  if !(validUrl inp.url) then
    ⟨Except.error ⟨400, "Invalid URL format"⟩, fs, false, false, 0⟩
  else if isBlocked inp.url then
    ⟨Except.error ⟨400, "This platform is not supported"⟩, fs, false, false, 0⟩
  else
    let fs1 := fs.mkdir inp.tmpdir
    let r := download_video_sync inp.url inp.quality inp.ydl fs1
    match r.1 with
    | Except.error msg =>
      ⟨Except.error (classifyError msg), cleanupOnErr r.2 inp.tmpdir, true, true,
        inp.workDuration⟩
    | Except.ok (_dlPath, info) =>
      if inp.workDuration > 120 then
        ⟨Except.error (classifyError "Download timeout - video processing took too long"),
          cleanupOnErr r.2 inp.tmpdir, true, true, inp.workDuration⟩
      else
        let fs3 := r.2.createFile inp.tempFilePath
        ⟨Except.ok ⟨inp.tempFilePath, safeTitle info.title ++ "." ++ info.ext,
            [inp.tempFilePath, inp.tmpdir]⟩,
          fs3, true, true, inp.workDuration⟩

/-! ## Basic filesystem lemmas -/

theorem underDir_self (d : String) : underDir d d = true := by
  simp [underDir]

theorem rmtree_not_exists (fs : FS) (d : String) : ¬ (fs.rmtree d).existsP d := by
  simp [FS.rmtree, FS.existsP, List.mem_filter, underDir_self]

theorem rmtree_files_sub {fs : FS} {d q : String}
    (h : q ∈ (fs.rmtree d).files) : q ∈ fs.files :=
  (List.mem_filter.mp h).1

theorem rmtree_dirs_sub {fs : FS} {d q : String}
    (h : q ∈ (fs.rmtree d).dirs) : q ∈ fs.dirs :=
  (List.mem_filter.mp h).1

theorem unlink_not_mem (fs : FS) (p : String) : p ∉ (fs.unlink p).files := by
  simp [FS.unlink, List.mem_filter]

theorem unlink_files_sub {fs : FS} {p q : String}
    (h : q ∈ (fs.unlink p).files) : q ∈ fs.files :=
  (List.mem_filter.mp h).1

theorem unlink_dirs (fs : FS) (p : String) : (fs.unlink p).dirs = fs.dirs := rfl

/-- Well-formedness follows from being a sub-filesystem of a well-formed one. -/
theorem FS.WF.of_subsets {fs fs2 : FS} (hwf : fs.WF)
    (hf : fs2.files ⊆ fs.files) (hd : fs2.dirs ⊆ fs.dirs) : fs2.WF :=
  fun p hp hpd => hwf p (hf hp) (hd hpd)

/-! ## Idempotence of the deferred cleanup loop (claim C5) -/

/-- One cleanup iteration never fails, only removes paths, and (on a
well-formed filesystem) leaves its path nonexistent. -/
theorem cleanupStep_ok (fs : FS) (p : String) :
    ∃ fs2, cleanupStep fs p = Except.ok fs2 ∧
      fs2.files ⊆ fs.files ∧ fs2.dirs ⊆ fs.dirs ∧
      (fs.WF → ¬ fs2.existsP p) := by
  by_cases hex : fs.existsP p
  · by_cases hf : fs.isfile p
    · refine ⟨fs.unlink p, ?_, ?_, ?_, ?_⟩
      · simp [cleanupStep, hex, hf, unlinkE]
      · exact fun q hq => unlink_files_sub hq
      · rw [unlink_dirs]
        exact fun _ h => h
      · intro hwf
        rintro (h | h)
        · exact unlink_not_mem fs p h
        · rw [unlink_dirs] at h
          exact hwf p hf h
    · by_cases hd : fs.isdir p
      · refine ⟨fs.rmtree p, ?_, ?_, ?_, fun _ => rmtree_not_exists fs p⟩
        · simp [cleanupStep, hex, hf, hd, rmtreeE]
        · exact fun q hq => rmtree_files_sub hq
        · exact fun q hq => rmtree_dirs_sub hq
      · exact absurd hex (by simp [FS.existsP, FS.isfile, FS.isdir] at hf hd ⊢; exact ⟨hf, hd⟩)
  · exact ⟨fs, by simp [cleanupStep, hex], fun _ h => h, fun _ h => h, fun _ => hex⟩

/-- The cleanup loop never fails, only removes paths, and afterwards none of
the processed paths exists. -/
theorem cleanupPathsE_ok (paths : List String) (fs : FS) (hwf : fs.WF) :
    ∃ fs2, cleanupPathsE paths fs = Except.ok fs2 ∧ fs2.WF ∧
      fs2.files ⊆ fs.files ∧ fs2.dirs ⊆ fs.dirs ∧
      ∀ p ∈ paths, ¬ fs2.existsP p := by
  induction paths generalizing fs with
  | nil => exact ⟨fs, rfl, hwf, fun _ h => h, fun _ h => h, by simp⟩
  | cons p rest ih =>
    obtain ⟨fsa, hstep, hfa, hda, hdead⟩ := cleanupStep_ok fs p
    have hwfa : fsa.WF := hwf.of_subsets hfa hda
    obtain ⟨fs2, hrun, hwf2, hf2, hd2, hdead2⟩ := ih fsa hwfa
    refine ⟨fs2, ?_, hwf2, fun q hq => hfa (hf2 hq), fun q hq => hda (hd2 hq), ?_⟩
    · simp [cleanupPathsE, hstep, hrun]
    · intro q hq
      rcases List.mem_cons.mp hq with rfl | hq
      · rintro (h | h)
        · exact hdead hwf (Or.inl (hf2 h))
        · exact hdead hwf (Or.inr (hd2 h))
      · exact hdead2 q hq

/-- Running the cleanup loop over paths none of which exists is a no-op. -/
theorem cleanupPathsE_noop (paths : List String) (fs : FS)
    (h : ∀ p ∈ paths, ¬ fs.existsP p) : cleanupPathsE paths fs = Except.ok fs := by
  induction paths with
  | nil => rfl
  | cons p rest ih =>
    have hstep : cleanupStep fs p = Except.ok fs := by
      simp [cleanupStep, h p (List.mem_cons_self p rest)]
    simp [cleanupPathsE, hstep, ih fun q hq => h q (List.mem_cons_of_mem p hq)]

/-! ## Structural lemmas about the download handler -/

/-- The work function never creates or removes directories. -/
theorem sync_dirs (url quality : String) (ydl : YdlResult) (fs : FS) :
    (download_video_sync url quality ydl fs).2.dirs = fs.dirs := by
  cases ydl <;> simp only [download_video_sync] <;>
    split_ifs <;> rfl

/-- Every file existing after the work function ran existed before, except
possibly the downloaded file itself. -/
theorem sync_files_sub (url quality : String) (ydl : YdlResult) (fs : FS) (q : String)
    (hq : q ∈ (download_video_sync url quality ydl fs).2.files) :
    q ∈ fs.files ∨
      ∃ info path fileOk size, ydl = YdlResult.success info path fileOk size ∧ q = path := by
  cases ydl with
  | downloadError msg =>
    simp only [download_video_sync] at hq
    split_ifs at hq <;> exact Or.inl hq
  | otherError msg => exact Or.inl hq
  | success info path fileOk size =>
    cases fileOk with
    | false =>
      simp [download_video_sync] at hq
      split_ifs at hq <;> exact Or.inl hq
    | true =>
      simp [download_video_sync, FS.createFile, FS.unlink, List.mem_filter] at hq
      split_ifs at hq <;>
        first
        | exact Or.inl hq
        | exact Or.inl (List.mem_of_mem_filter hq)
        | (rcases List.mem_cons.mp (show q ∈ path :: fs.files from hq) with rfl | h
           · exact Or.inr ⟨info, q, true, size, rfl, rfl⟩
           · exact Or.inl h)

/-- Once validation passes, the handler returns only when the awaited
executor call has returned: the caller-visible return instant equals the
work function's duration, whatever the outcome. -/
theorem returnTime_eq_workDuration (inp : DVInput) (fs : FS)
    (hval : validUrl inp.url = true) (hblk : isBlocked inp.url = false) :
    (download_video inp fs).returnTime = inp.workDuration := by
  simp only [download_video, hval, hblk, Bool.not_true, Bool.false_eq_true, if_false]
  split
  · rfl
  · split_ifs <;> rfl

/-! ## Claim theorems -/

/-- C5: Invoking the deferred cleanup step (`CleanupFileResponse.__call__`'s
loop) more than once on the same paths has no effect after the first
invocation: the first invocation succeeds, and the second (and hence any
later) invocation succeeds returning the state unchanged — no `ENOENT` error
is ever raised and no delete is attempted on an already-deleted path, because
each path is deleted only if it still exists. -/
theorem cleanup_idempotent (paths : List String) (fs : FS) (hwf : fs.WF) :
    ∃ fs2, cleanupPathsE paths fs = Except.ok fs2 ∧
      cleanupPathsE paths fs2 = Except.ok fs2 := by
  obtain ⟨fs2, h1, _, _, _, h5⟩ := cleanupPathsE_ok paths fs hwf
  exact ⟨fs2, h1, cleanupPathsE_noop paths fs2 h5⟩

/-- Witness for C5 at the cleanup-paths shape the video endpoint produces. -/
theorem cleanup_idempotent_witness :
    ∃ fs2, cleanupPathsE ["/tmp/tmpabc", "/tmp/video_download_xyz"]
        ⟨["/tmp/tmpabc", "/tmp/video_download_xyz/vid.mp4"],
         ["/tmp/video_download_xyz"]⟩ = Except.ok fs2 ∧
      cleanupPathsE ["/tmp/tmpabc", "/tmp/video_download_xyz"] fs2 = Except.ok fs2 :=
  cleanup_idempotent _ _ (by decide)

/-- C7: `generate_qr_code` returns an HTTP 400 failure if and only if the
request text is longer than 2000 characters or is empty after trimming
whitespace; for every other text it performs the QR work and returns the
image (streamed as PNG), with validation preceding the QR construction. -/
theorem qr_validation_iff (req : QRCodeRequest) :
    ((req.text.length > 2000 ∨ stripEmpty req.text = true) ↔
      ∃ e, generate_qr_code req = Except.error e ∧ e.status = 400) ∧
    (¬(req.text.length > 2000 ∨ stripEmpty req.text = true) →
      generate_qr_code req =
        Except.ok ⟨max 5 (min 20 req.size), max 1 (min 10 req.border), req.text⟩) := by
  by_cases h1 : req.text.length > 2000
  · exact ⟨⟨fun _ => ⟨⟨400, "Text too long (max 2000 characters)"⟩,
        by simp [generate_qr_code, h1], rfl⟩, fun _ => Or.inl h1⟩,
      fun hn => absurd (Or.inl h1) hn⟩
  · by_cases h2 : stripEmpty req.text = true
    · exact ⟨⟨fun _ => ⟨⟨400, "Text cannot be empty"⟩,
          by simp [generate_qr_code, h1, h2], rfl⟩, fun _ => Or.inr h2⟩,
        fun hn => absurd (Or.inr h2) hn⟩
    · refine ⟨⟨fun h => absurd h (by simp [h1, h2]), ?_⟩,
        fun _ => by simp [generate_qr_code, h1, h2]⟩
      rintro ⟨e, he, _⟩
      simp [generate_qr_code, h1, h2] at he

/-- Witness for C7 on a valid request. -/
theorem qr_validation_iff_witness :
    generate_qr_code ⟨"hello", 10, 4⟩ =
      Except.ok ⟨max 5 (min 20 10), max 1 (min 10 4), "hello"⟩ :=
  (qr_validation_iff ⟨"hello", 10, 4⟩).2 (by decide)

/-- C8: for every generate-qr request with valid text, the box size the
endpoint hands to the QR library is `max 5 (min 20 size)` and the border is
`max 1 (min 10 border)` — out-of-range integers are clamped into `[5,20]`
and `[1,10]` instead of failing the request. -/
theorem qr_clamping (req : QRCodeRequest)
    (h1 : ¬ req.text.length > 2000) (h2 : stripEmpty req.text = false) :
    generate_qr_code req =
      Except.ok ⟨max 5 (min 20 req.size), max 1 (min 10 req.border), req.text⟩ ∧
    5 ≤ max 5 (min 20 req.size) ∧ max 5 (min 20 req.size) ≤ 20 ∧
    1 ≤ max 1 (min 10 req.border) ∧ max 1 (min 10 req.border) ≤ 10 := by
  refine ⟨by simp [generate_qr_code, h1, h2], le_max_left _ _, ?_, le_max_left _ _, ?_⟩
  · exact max_le (by norm_num) (min_le_left _ _)
  · exact max_le (by norm_num) (min_le_left _ _)

/-- Witness for C8 with both parameters out of range. -/
theorem qr_clamping_witness :
    generate_qr_code ⟨"hi", 1000, -7⟩ =
      Except.ok ⟨max 5 (min 20 1000), max 1 (min 10 (-7)), "hi"⟩ ∧
    5 ≤ max 5 (min 20 (1000:Int)) ∧ max 5 (min 20 (1000:Int)) ≤ 20 ∧
    1 ≤ max 1 (min 10 (-7:Int)) ∧ max 1 (min 10 (-7:Int)) ≤ 10 :=
  qr_clamping ⟨"hi", 1000, -7⟩ (by decide) (by decide)

/-- C10 counterexample: a text of 5001 whitespace characters is non-empty
and whitespace-only, yet `text_to_speech` rejects it with the length
message, not with `"Text cannot be empty"` as the claim states. -/
theorem tts_whitespace_long_counterexample :
    stripEmpty (String.mk (List.replicate 5001 ' ')) = true ∧
    String.mk (List.replicate 5001 ' ') ≠ "" ∧
    text_to_speech ⟨String.mk (List.replicate 5001 ' '), "en", false⟩ =
      Except.error ⟨400, "Text too long (max 5000 characters)"⟩ ∧
    "Text too long (max 5000 characters)" ≠ "Text cannot be empty" := by
  have hlen : (String.mk (List.replicate 5001 ' ')).length = 5001 := by
    show (List.replicate 5001 ' ').length = 5001
    exact List.length_replicate 5001 ' '
  refine ⟨?_, ?_, ?_, by decide⟩
  · show (List.replicate 5001 ' ').all Char.isWhitespace = true
    rw [List.all_eq_true]
    intro c hc
    rw [List.eq_of_mem_replicate hc]
    decide
  · intro h
    rw [h] at hlen
    exact absurd hlen (by decide)
  · have hc : (String.mk (List.replicate 5001 ' ')).length > 5000 := by
      rw [hlen]; norm_num
    unfold text_to_speech
    rw [if_pos hc]

/-- C10 (amended): every whitespace-only text is rejected with HTTP 400 and
synthesis is never invoked; the message is `"Text cannot be empty"` whenever
the text is within the 5000-character bound (texts over the bound are caught
by the earlier length check with its own message). -/
theorem tts_whitespace_rejected (req : TextToSpeechRequest)
    (hws : stripEmpty req.text = true) :
    ∃ e, text_to_speech req = Except.error e ∧ e.status = 400 ∧
      (req.text.length ≤ 5000 → e.detail = "Text cannot be empty") := by
  by_cases h : req.text.length > 5000
  · exact ⟨⟨400, "Text too long (max 5000 characters)"⟩, by simp [text_to_speech, h], rfl,
      fun hc => by omega⟩
  · exact ⟨⟨400, "Text cannot be empty"⟩, by simp [text_to_speech, h, hws], rfl, fun _ => rfl⟩

/-- Witness for C10 (amended) on a single-space text. -/
theorem tts_whitespace_rejected_witness :
    ∃ e, text_to_speech ⟨" ", "en", false⟩ = Except.error e ∧ e.status = 400 ∧
      ((" " : String).length ≤ 5000 → e.detail = "Text cannot be empty") :=
  tts_whitespace_rejected ⟨" ", "en", false⟩ (by decide)

/-- C3: every download-video request whose URL lacks an `http(s)://` scheme,
or whose URL matches a blocked pattern, is rejected with HTTP 400 before the
temp directory is created and before the work function is submitted to the
thread pool: the filesystem is untouched and the runner is never reached. -/
theorem validation_before_submission (inp : DVInput) (fs : FS)
    (h : validUrl inp.url = false ∨ (validUrl inp.url = true ∧ isBlocked inp.url = true)) :
    (∃ e, (download_video inp fs).result = Except.error e ∧ e.status = 400) ∧
    (download_video inp fs).fs = fs ∧
    (download_video inp fs).workSubmitted = false ∧
    (download_video inp fs).tmpdirCreated = false := by
  rcases h with h | ⟨h1, h2⟩
  · exact ⟨⟨⟨400, "Invalid URL format"⟩, by simp [download_video, h], rfl⟩,
      by simp [download_video, h], by simp [download_video, h],
      by simp [download_video, h]⟩
  · exact ⟨⟨⟨400, "This platform is not supported"⟩, by simp [download_video, h1, h2], rfl⟩,
      by simp [download_video, h1, h2], by simp [download_video, h1, h2],
      by simp [download_video, h1, h2]⟩

/-- Witness for C3 on a non-HTTP URL. -/
theorem validation_before_submission_witness :
    (∃ e, (download_video ⟨"ftp://example.com/v", "best", YdlResult.otherError "e", 0,
        "/tmp/video_download_a", "/tmp/tmpb"⟩ ⟨[], []⟩).result = Except.error e ∧
        e.status = 400) ∧
    (download_video ⟨"ftp://example.com/v", "best", YdlResult.otherError "e", 0,
        "/tmp/video_download_a", "/tmp/tmpb"⟩ ⟨[], []⟩).fs = ⟨[], []⟩ ∧
    (download_video ⟨"ftp://example.com/v", "best", YdlResult.otherError "e", 0,
        "/tmp/video_download_a", "/tmp/tmpb"⟩ ⟨[], []⟩).workSubmitted = false ∧
    (download_video ⟨"ftp://example.com/v", "best", YdlResult.otherError "e", 0,
        "/tmp/video_download_a", "/tmp/tmpb"⟩ ⟨[], []⟩).tmpdirCreated = false :=
  validation_before_submission _ _ (by decide)

/-- C9 counterexample: the URL `"facebook.com"` (no scheme) contains a
blocked pattern, yet the endpoint rejects it with `"Invalid URL format"`,
not `"This platform is not supported"`: the scheme check runs first, so the
claim's "any URL whose lowercased text contains a blocked pattern is
rejected with the platform message" is false as stated. -/
theorem blocked_check_after_scheme_counterexample :
    strContains (strLower "facebook.com") "facebook.com" = true ∧
    (download_video ⟨"facebook.com", "best", YdlResult.otherError "e", 0,
        "/tmp/video_download_a", "/tmp/tmpb"⟩ ⟨[], []⟩).result =
      Except.error ⟨400, "Invalid URL format"⟩ ∧
    ("Invalid URL format" : String) ≠ "This platform is not supported" :=
  ⟨by decide, by rfl, by decide⟩

/-- C9 (amended): for every request whose URL passes the scheme check, the
policy block is a case-insensitive substring match over the whole URL: if
the lowercased URL contains `"facebook.com"` or `"tiktok.com"` anywhere
(host, path or query), the endpoint returns HTTP 400
`"This platform is not supported"` without submitting any work and without
touching the filesystem. -/
theorem blocked_substring_match (inp : DVInput) (fs : FS)
    (hval : validUrl inp.url = true)
    (hblk : strContains (strLower inp.url) "facebook.com" = true ∨
            strContains (strLower inp.url) "tiktok.com" = true) :
    (download_video inp fs).result = Except.error ⟨400, "This platform is not supported"⟩ ∧
    (download_video inp fs).workSubmitted = false ∧
    (download_video inp fs).fs = fs := by
  have hb : isBlocked inp.url = true := by
    simp only [isBlocked, blocked_patterns, List.any_cons, List.any_nil,
      Bool.or_false, Bool.or_eq_true]
    exact hblk
  exact ⟨by simp [download_video, hval, hb], by simp [download_video, hval, hb],
    by simp [download_video, hval, hb]⟩

/-- Witness for C9 (amended): blocked pattern in the query string of an
allowed host, in mixed case. -/
theorem blocked_substring_match_witness :
    (download_video ⟨"https://example.com/watch?u=FACEBOOK.com", "best",
        YdlResult.otherError "e", 0, "/tmp/video_download_a", "/tmp/tmpb"⟩
        ⟨[], []⟩).result = Except.error ⟨400, "This platform is not supported"⟩ ∧
    (download_video ⟨"https://example.com/watch?u=FACEBOOK.com", "best",
        YdlResult.otherError "e", 0, "/tmp/video_download_a", "/tmp/tmpb"⟩
        ⟨[], []⟩).workSubmitted = false ∧
    (download_video ⟨"https://example.com/watch?u=FACEBOOK.com", "best",
        YdlResult.otherError "e", 0, "/tmp/video_download_a", "/tmp/tmpb"⟩
        ⟨[], []⟩).fs = ⟨[], []⟩ :=
  blocked_substring_match _ _ (by decide) (Or.inl (by decide))

/-- C6: when the work function hits a `DownloadError` whose message contains
`"Video unavailable"`, the endpoint returns HTTP 404 with detail
`"Video is unavailable or private"` (which contains `"unavailable"`), and
the temp directory no longer exists when the handler returns. -/
theorem unavailable_maps_404 (inp : DVInput) (fs : FS) (msg : String)
    (hval : validUrl inp.url = true) (hblk : isBlocked inp.url = false)
    (hy : inp.ydl = YdlResult.downloadError msg)
    (hm : strContains msg "Video unavailable" = true) :
    (download_video inp fs).result = Except.error ⟨404, "Video is unavailable or private"⟩ ∧
    strContains (strLower "Video is unavailable or private") "unavailable" = true ∧
    ¬ (download_video inp fs).fs.existsP inp.tmpdir := by
  have hsync : download_video_sync inp.url inp.quality inp.ydl (fs.mkdir inp.tmpdir) =
      (Except.error "Video is unavailable or private", fs.mkdir inp.tmpdir) := by
    rw [hy]; simp [download_video_sync, hm]
  have hcls : classifyError "Video is unavailable or private" =
      ⟨404, "Video is unavailable or private"⟩ := by decide
  have hex : (fs.mkdir inp.tmpdir).existsP inp.tmpdir :=
    Or.inr (List.mem_cons_self _ _)
  have ht : download_video inp fs =
      ⟨Except.error (classifyError "Video is unavailable or private"),
        cleanupOnErr (fs.mkdir inp.tmpdir) inp.tmpdir, true, true, inp.workDuration⟩ := by
    simp [download_video, hval, hblk, hsync]
  refine ⟨by rw [ht, hcls], by decide, ?_⟩
  rw [ht]
  show ¬ (cleanupOnErr (fs.mkdir inp.tmpdir) inp.tmpdir).existsP inp.tmpdir
  rw [cleanupOnErr, if_pos hex]
  exact rmtree_not_exists _ _

/-- Witness for C6 on a concrete unavailable video. -/
theorem unavailable_maps_404_witness :
    (download_video ⟨"https://youtu.be/abc", "best",
        YdlResult.downloadError "ERROR: Video unavailable", 3,
        "/tmp/video_download_a", "/tmp/tmpb"⟩ ⟨[], []⟩).result =
      Except.error ⟨404, "Video is unavailable or private"⟩ ∧
    strContains (strLower "Video is unavailable or private") "unavailable" = true ∧
    ¬ (download_video ⟨"https://youtu.be/abc", "best",
        YdlResult.downloadError "ERROR: Video unavailable", 3,
        "/tmp/video_download_a", "/tmp/tmpb"⟩ ⟨[], []⟩).fs.existsP "/tmp/video_download_a" :=
  unavailable_maps_404 _ _ "ERROR: Video unavailable" (by decide) (by decide) rfl (by decide)

/-- C2: when the downloaded output file exceeds the 100MB ceiling (having
passed the advisory metadata pre-checks), the work function checks the
actual file size after the download completes, deletes the oversized file,
and raises `"Downloaded file too large"`; the endpoint maps this to HTTP 413
`"Video file is too large (max 100MB)"` (mentioning "too large") and no
output bytes are delivered — the response temp file is never created. -/
theorem size_limit_enforced (inp : DVInput) (fs : FS) (info : YdlInfo) (path : String)
    (size : Nat)
    (hval : validUrl inp.url = true) (hblk : isBlocked inp.url = false)
    (hy : inp.ydl = YdlResult.success info path true size)
    (hdur : info.duration ≤ 600)
    (hmeta : (if info.filesize ≠ 0 then info.filesize else info.filesizeApprox) ≤
      100 * 1024 * 1024)
    (hbig : size > 100 * 1024 * 1024)
    (htf : ¬ fs.existsP inp.tempFilePath)
    (hne1 : inp.tempFilePath ≠ path)
    (hne2 : inp.tempFilePath ≠ inp.tmpdir) :
    (download_video_sync inp.url inp.quality inp.ydl (fs.mkdir inp.tmpdir)).1 =
        Except.error "Downloaded file too large" ∧
    path ∉ (download_video_sync inp.url inp.quality inp.ydl (fs.mkdir inp.tmpdir)).2.files ∧
    strContains (strLower "Video file is too large (max 100MB)") "too large" = true ∧
    (download_video inp fs).result = Except.error ⟨413, "Video file is too large (max 100MB)"⟩ ∧
    ¬ (download_video inp fs).fs.existsP inp.tempFilePath := by
  have h1 : ¬ info.duration > 600 := by omega
  have h2 : ¬ (if info.filesize ≠ 0 then info.filesize else info.filesizeApprox) >
      100 * 1024 * 1024 := by omega
  have h3 : ¬ size = 0 := by omega
  have h2' : (if info.filesize = 0 then info.filesizeApprox else info.filesize) ≤
      104857600 := by
    by_cases hf : info.filesize = 0
    · simpa [hf] using hmeta
    · simpa [hf] using hmeta
  have hsync : download_video_sync inp.url inp.quality inp.ydl (fs.mkdir inp.tmpdir) =
      (Except.error "Downloaded file too large",
        (((fs.mkdir inp.tmpdir).createFile path).unlink path)) := by
    rw [hy]
    simp [download_video_sync, h1, h2, h3, hbig, h2']
  have hcls : classifyError "Downloaded file too large" =
      ⟨413, "Video file is too large (max 100MB)"⟩ := by decide
  have hdl : download_video inp fs =
      ⟨Except.error (classifyError "Downloaded file too large"),
        cleanupOnErr (((fs.mkdir inp.tmpdir).createFile path).unlink path) inp.tmpdir,
        true, true, inp.workDuration⟩ := by
    simp [download_video, hval, hblk, hsync]
  have hex : ((((fs.mkdir inp.tmpdir).createFile path).unlink path)).existsP inp.tmpdir :=
    Or.inr (List.mem_cons_self _ _)
  refine ⟨by rw [hsync], ?_, by decide, by rw [hdl, hcls], ?_⟩
  · rw [hsync]
    exact unlink_not_mem _ _
  · rw [hdl]
    show ¬ (cleanupOnErr (((fs.mkdir inp.tmpdir).createFile path).unlink path)
        inp.tmpdir).existsP inp.tempFilePath
    rw [cleanupOnErr, if_pos hex]
    rintro (h | h)
    · rcases List.mem_cons.mp (unlink_files_sub (rmtree_files_sub h)) with h' | h'
      · exact hne1 h'
      · exact htf (Or.inl h')
    · rcases List.mem_cons.mp (rmtree_dirs_sub h) with h' | h'
      · exact hne2 h'
      · exact htf (Or.inr h')

/-- Witness for C2: a 200MB download against the 100MB ceiling. -/
theorem size_limit_enforced_witness :
    (download_video_sync "https://example.com/v" "best"
        (YdlResult.success ⟨60, 0, 0, "t", "mp4"⟩ "/tmp/video_download_a/v.mp4" true
          (200 * 1024 * 1024)) ((⟨[], []⟩ : FS).mkdir "/tmp/video_download_a")).1 =
        Except.error "Downloaded file too large" ∧
    "/tmp/video_download_a/v.mp4" ∉
      (download_video_sync "https://example.com/v" "best"
        (YdlResult.success ⟨60, 0, 0, "t", "mp4"⟩ "/tmp/video_download_a/v.mp4" true
          (200 * 1024 * 1024)) ((⟨[], []⟩ : FS).mkdir "/tmp/video_download_a")).2.files ∧
    strContains (strLower "Video file is too large (max 100MB)") "too large" = true ∧
    (download_video ⟨"https://example.com/v", "best",
        YdlResult.success ⟨60, 0, 0, "t", "mp4"⟩ "/tmp/video_download_a/v.mp4" true
          (200 * 1024 * 1024), 30, "/tmp/video_download_a", "/tmp/tmpb"⟩
        ⟨[], []⟩).result = Except.error ⟨413, "Video file is too large (max 100MB)"⟩ ∧
    ¬ (download_video ⟨"https://example.com/v", "best",
        YdlResult.success ⟨60, 0, 0, "t", "mp4"⟩ "/tmp/video_download_a/v.mp4" true
          (200 * 1024 * 1024), 30, "/tmp/video_download_a", "/tmp/tmpb"⟩
        ⟨[], []⟩).fs.existsP "/tmp/tmpb" :=
  size_limit_enforced ⟨"https://example.com/v", "best",
      YdlResult.success ⟨60, 0, 0, "t", "mp4"⟩ "/tmp/video_download_a/v.mp4" true
        (200 * 1024 * 1024), 30, "/tmp/video_download_a", "/tmp/tmpb"⟩ ⟨[], []⟩
    ⟨60, 0, 0, "t", "mp4"⟩ "/tmp/video_download_a/v.mp4" (200 * 1024 * 1024)
    (by decide) (by decide) rfl (by decide) (by decide) (by norm_num) (by decide)
    (by decide) (by decide)

/-- C1 counterexample: there is no uniform grace bound `B` such that every
job exceeding the 120-second deadline makes `download_video` return by
`120 + B` seconds — the handler stays blocked until the non-cancellable
work function returns, however long that takes, so the claim's "returns
within a bounded grace period of the deadline, not blocked by the underlying
call" is false. -/
theorem timeout_not_bounded_counterexample :
    ¬ ∃ B : Nat, ∀ (inp : DVInput) (fs : FS),
        validUrl inp.url = true → isBlocked inp.url = false →
        inp.workDuration > 120 →
        (download_video inp fs).returnTime ≤ 120 + B := by
  rintro ⟨B, h⟩
  have hb := h ⟨"https://example.com/v", "best",
      YdlResult.success ⟨0, 0, 0, "t", "mp4"⟩ "/tmp/video_download_a/v.mp4" true 10,
      121 + B, "/tmp/video_download_a", "/tmp/tmpb"⟩ ⟨[], []⟩
      (by show validUrl "https://example.com/v" = true; decide)
      (by show isBlocked "https://example.com/v" = false; decide)
      (by show 121 + B > 120; omega)
  rw [returnTime_eq_workDuration _ _
      (by show validUrl "https://example.com/v" = true; decide)
      (by show isBlocked "https://example.com/v" = false; decide)] at hb
  change 121 + B ≤ 120 + B at hb
  omega

/-- C1 (amended): the 120-second deadline is enforced post hoc.  The handler
blocks until the work function returns (`returnTime = workDuration`); when
the work function completes successfully but took longer than 120 seconds,
the handler then raises the timeout, returns HTTP 408
`"Download timeout - please try a shorter video"`, and deletes the workspace
synchronously before returning (no deferred/asynchronous deletion). -/
theorem timeout_post_hoc (inp : DVInput) (fs : FS) (info : YdlInfo) (path : String)
    (size : Nat)
    (hval : validUrl inp.url = true) (hblk : isBlocked inp.url = false)
    (hy : inp.ydl = YdlResult.success info path true size)
    (hdur : info.duration ≤ 600)
    (hmeta : (if info.filesize ≠ 0 then info.filesize else info.filesizeApprox) ≤
      100 * 1024 * 1024)
    (hsz0 : size ≠ 0) (hszcap : size ≤ 100 * 1024 * 1024)
    (ht120 : inp.workDuration > 120) :
    (download_video inp fs).result =
      Except.error ⟨408, "Download timeout - please try a shorter video"⟩ ∧
    (download_video inp fs).returnTime = inp.workDuration ∧
    ¬ (download_video inp fs).fs.existsP inp.tmpdir := by
  have h1 : ¬ info.duration > 600 := by omega
  have h2 : ¬ (if info.filesize ≠ 0 then info.filesize else info.filesizeApprox) >
      100 * 1024 * 1024 := by omega
  have h4 : ¬ size > 100 * 1024 * 1024 := by omega
  have h2' : (if info.filesize = 0 then info.filesizeApprox else info.filesize) ≤
      104857600 := by
    by_cases hf : info.filesize = 0
    · simpa [hf] using hmeta
    · simpa [hf] using hmeta
  have hsync : download_video_sync inp.url inp.quality inp.ydl (fs.mkdir inp.tmpdir) =
      (Except.ok (path, info), (fs.mkdir inp.tmpdir).createFile path) := by
    rw [hy]
    simp [download_video_sync, h1, h2, hsz0, h4, h2']
  have hcls : classifyError "Download timeout - video processing took too long" =
      ⟨408, "Download timeout - please try a shorter video"⟩ := by decide
  have hex : ((fs.mkdir inp.tmpdir).createFile path).existsP inp.tmpdir :=
    Or.inr (List.mem_cons_self _ _)
  have hdl : download_video inp fs =
      ⟨Except.error (classifyError "Download timeout - video processing took too long"),
        cleanupOnErr ((fs.mkdir inp.tmpdir).createFile path) inp.tmpdir,
        true, true, inp.workDuration⟩ := by
    simp [download_video, hval, hblk, hsync, ht120]
  refine ⟨by rw [hdl, hcls], by rw [hdl], ?_⟩
  rw [hdl]
  show ¬ (cleanupOnErr ((fs.mkdir inp.tmpdir).createFile path) inp.tmpdir).existsP inp.tmpdir
  rw [cleanupOnErr, if_pos hex]
  exact rmtree_not_exists _ _

/-- Witness for C1 (amended): a 300-second successful download against the
120-second deadline. -/
theorem timeout_post_hoc_witness :
    (download_video ⟨"https://example.com/v", "best",
        YdlResult.success ⟨60, 0, 0, "t", "mp4"⟩ "/tmp/video_download_a/v.mp4" true 1000,
        300, "/tmp/video_download_a", "/tmp/tmpb"⟩ ⟨[], []⟩).result =
      Except.error ⟨408, "Download timeout - please try a shorter video"⟩ ∧
    (download_video ⟨"https://example.com/v", "best",
        YdlResult.success ⟨60, 0, 0, "t", "mp4"⟩ "/tmp/video_download_a/v.mp4" true 1000,
        300, "/tmp/video_download_a", "/tmp/tmpb"⟩ ⟨[], []⟩).returnTime = 300 ∧
    ¬ (download_video ⟨"https://example.com/v", "best",
        YdlResult.success ⟨60, 0, 0, "t", "mp4"⟩ "/tmp/video_download_a/v.mp4" true 1000,
        300, "/tmp/video_download_a", "/tmp/tmpb"⟩ ⟨[], []⟩).fs.existsP
      "/tmp/video_download_a" :=
  timeout_post_hoc ⟨"https://example.com/v", "best",
      YdlResult.success ⟨60, 0, 0, "t", "mp4"⟩ "/tmp/video_download_a/v.mp4" true 1000,
      300, "/tmp/video_download_a", "/tmp/tmpb"⟩ ⟨[], []⟩
    ⟨60, 0, 0, "t", "mp4"⟩ "/tmp/video_download_a/v.mp4" 1000
    (by decide) (by decide) rfl (by decide) (by norm_num) (by decide) (by norm_num)
    (by norm_num)

/-- If the work function returns a path-info pair, the yt-dlp run was a
successful download of exactly that file. -/
theorem sync_ok_shape (url quality : String) (ydl : YdlResult) (fs : FS) (p : String)
    (i : YdlInfo) (h : (download_video_sync url quality ydl fs).1 = Except.ok (p, i)) :
    ∃ size, ydl = YdlResult.success i p true size := by
  cases ydl with
  | downloadError msg =>
    simp only [download_video_sync] at h
    split_ifs at h
  | otherError msg => simp [download_video_sync] at h
  | success info path fileOk size =>
    cases fileOk with
    | false =>
      simp only [download_video_sync] at h
      split_ifs at h <;> simp_all
    | true =>
      simp only [download_video_sync] at h
      split_ifs at h <;> simp_all

/-- C4: once the temp directory is created, failure paths remove both the
temp directory and the response temp file before the handler returns; only a
successful job leaves artifacts behind, handing the caller exactly the
cleanup list `[temp_file_path, tmpdir]`, and one invocation of the deferred
cleanup removes each of them (idempotence of further invocations is C5). -/
theorem workspace_cleanup (inp : DVInput) (fs : FS)
    (hval : validUrl inp.url = true) (hblk : isBlocked inp.url = false)
    (htd : ¬ fs.existsP inp.tmpdir)
    (htf : ¬ fs.existsP inp.tempFilePath)
    (hne : inp.tempFilePath ≠ inp.tmpdir)
    (hpath : ∀ info path fileOk size, inp.ydl = YdlResult.success info path fileOk size →
        path ≠ inp.tempFilePath ∧ path ≠ inp.tmpdir) :
    ((∃ e, (download_video inp fs).result = Except.error e) →
        ¬ (download_video inp fs).fs.existsP inp.tmpdir ∧
        ¬ (download_video inp fs).fs.existsP inp.tempFilePath) ∧
    (∀ r, (download_video inp fs).result = Except.ok r →
        r.cleanupPaths = [inp.tempFilePath, inp.tmpdir] ∧
        (download_video inp fs).fs.existsP inp.tempFilePath ∧
        (download_video inp fs).fs.existsP inp.tmpdir ∧
        ∃ fs2, cleanupPathsE r.cleanupPaths (download_video inp fs).fs = Except.ok fs2 ∧
          ¬ fs2.existsP inp.tempFilePath ∧ ¬ fs2.existsP inp.tmpdir) := by
  have herr : ∀ fsX : FS, fsX.dirs = inp.tmpdir :: fs.dirs →
      (∀ q, q ∈ fsX.files →
        q ∈ fs.files ∨ ∃ i2 p2 f2 s2, inp.ydl = YdlResult.success i2 p2 f2 s2 ∧ q = p2) →
      ¬ (cleanupOnErr fsX inp.tmpdir).existsP inp.tmpdir ∧
      ¬ (cleanupOnErr fsX inp.tmpdir).existsP inp.tempFilePath := by
    intro fsX hd hf
    have hmem : inp.tmpdir ∈ fsX.dirs := by rw [hd]; exact List.mem_cons_self _ _
    rw [cleanupOnErr, if_pos (show fsX.existsP inp.tmpdir from Or.inr hmem)]
    refine ⟨rmtree_not_exists _ _, ?_⟩
    rintro (h | h)
    · rcases hf _ (rmtree_files_sub h) with h' | ⟨i2, p2, f2, s2, hy2, hq⟩
      · exact htf (Or.inl h')
      · exact (hpath i2 p2 f2 s2 hy2).1 hq.symm
    · have h' : inp.tempFilePath ∈ inp.tmpdir :: fs.dirs := by
        rw [← hd]; exact rmtree_dirs_sub h
      rcases List.mem_cons.mp h' with h'' | h''
      · exact hne h''
      · exact htf (Or.inr h'')
  constructor
  · rintro ⟨e, he⟩
    cases hsr : (download_video_sync inp.url inp.quality inp.ydl (fs.mkdir inp.tmpdir)).1 with
    | error msg =>
      have hdl : download_video inp fs =
          ⟨Except.error (classifyError msg),
            cleanupOnErr (download_video_sync inp.url inp.quality inp.ydl
              (fs.mkdir inp.tmpdir)).2 inp.tmpdir, true, true, inp.workDuration⟩ := by
        simp [download_video, hval, hblk, hsr]
      rw [hdl]
      exact herr _ (by rw [sync_dirs]; rfl)
        (fun q hq => sync_files_sub inp.url inp.quality inp.ydl (fs.mkdir inp.tmpdir) q hq)
    | ok pr =>
      by_cases ht : inp.workDuration > 120
      · have hdl : download_video inp fs =
            ⟨Except.error (classifyError "Download timeout - video processing took too long"),
              cleanupOnErr (download_video_sync inp.url inp.quality inp.ydl
                (fs.mkdir inp.tmpdir)).2 inp.tmpdir, true, true, inp.workDuration⟩ := by
          simp [download_video, hval, hblk, hsr, ht]
        rw [hdl]
        exact herr _ (by rw [sync_dirs]; rfl)
          (fun q hq => sync_files_sub inp.url inp.quality inp.ydl (fs.mkdir inp.tmpdir) q hq)
      · obtain ⟨dlPath, info⟩ := pr
        have hdl : download_video inp fs =
            ⟨Except.ok ⟨inp.tempFilePath, safeTitle info.title ++ "." ++ info.ext,
                [inp.tempFilePath, inp.tmpdir]⟩,
              (download_video_sync inp.url inp.quality inp.ydl
                (fs.mkdir inp.tmpdir)).2.createFile inp.tempFilePath,
              true, true, inp.workDuration⟩ := by
          simp [download_video, hval, hblk, hsr, ht]
        rw [hdl] at he
        simp at he
  · intro r0 hok
    cases hsr : (download_video_sync inp.url inp.quality inp.ydl (fs.mkdir inp.tmpdir)).1 with
    | error msg =>
      have hdl : download_video inp fs =
          ⟨Except.error (classifyError msg),
            cleanupOnErr (download_video_sync inp.url inp.quality inp.ydl
              (fs.mkdir inp.tmpdir)).2 inp.tmpdir, true, true, inp.workDuration⟩ := by
        simp [download_video, hval, hblk, hsr]
      rw [hdl] at hok
      simp at hok
    | ok pr =>
      by_cases ht : inp.workDuration > 120
      · have hdl : download_video inp fs =
            ⟨Except.error (classifyError "Download timeout - video processing took too long"),
              cleanupOnErr (download_video_sync inp.url inp.quality inp.ydl
                (fs.mkdir inp.tmpdir)).2 inp.tmpdir, true, true, inp.workDuration⟩ := by
          simp [download_video, hval, hblk, hsr, ht]
        rw [hdl] at hok
        simp at hok
      · obtain ⟨dlPath, info⟩ := pr
        obtain ⟨sz, hy⟩ := sync_ok_shape inp.url inp.quality inp.ydl (fs.mkdir inp.tmpdir)
          dlPath info hsr
        obtain ⟨hp1, hp2⟩ := hpath info dlPath true sz hy
        have hdl : download_video inp fs =
            ⟨Except.ok ⟨inp.tempFilePath, safeTitle info.title ++ "." ++ info.ext,
                [inp.tempFilePath, inp.tmpdir]⟩,
              (download_video_sync inp.url inp.quality inp.ydl
                (fs.mkdir inp.tmpdir)).2.createFile inp.tempFilePath,
              true, true, inp.workDuration⟩ := by
          simp [download_video, hval, hblk, hsr, ht]
        rw [hdl] at hok
        have hr0 : r0 = ⟨inp.tempFilePath, safeTitle info.title ++ "." ++ info.ext,
            [inp.tempFilePath, inp.tmpdir]⟩ := by
          have := hok
          simp only [Except.ok.injEq] at this
          exact this.symm
        subst hr0
        rw [hdl]
        set fsS := (download_video_sync inp.url inp.quality inp.ydl
          (fs.mkdir inp.tmpdir)).2 with hfsS
        have hdirs : fsS.dirs = inp.tmpdir :: fs.dirs := by
          rw [hfsS, sync_dirs]; rfl
        have hfilesS : ∀ q, q ∈ fsS.files → q ∈ fs.files ∨ q = dlPath := by
          intro q hq
          rcases sync_files_sub inp.url inp.quality inp.ydl (fs.mkdir inp.tmpdir) q
            hq with h' | ⟨i2, p2, f2, s2, hy2, hq2⟩
          · exact Or.inl h'
          · rw [hy] at hy2
            cases hy2
            exact Or.inr hq2
        have hex1 : (fsS.createFile inp.tempFilePath).existsP inp.tempFilePath :=
          Or.inl (List.mem_cons_self _ _)
        have hfile1 : (fsS.createFile inp.tempFilePath).isfile inp.tempFilePath :=
          List.mem_cons_self _ _
        have hstep1 : cleanupStep (fsS.createFile inp.tempFilePath) inp.tempFilePath =
            Except.ok ((fsS.createFile inp.tempFilePath).unlink inp.tempFilePath) := by
          rw [cleanupStep, if_pos hex1, if_pos hfile1, unlinkE, if_pos hfile1]
        have hnf4 : inp.tempFilePath ∉
            ((fsS.createFile inp.tempFilePath).unlink inp.tempFilePath).files := by
          exact unlink_not_mem _ _
        have hd4 : ((fsS.createFile inp.tempFilePath).unlink inp.tempFilePath).dirs =
            inp.tmpdir :: fs.dirs := hdirs
        have hex2 : ((fsS.createFile inp.tempFilePath).unlink inp.tempFilePath).existsP
            inp.tmpdir := Or.inr (by rw [hd4]; exact List.mem_cons_self _ _)
        have hnotfile2 : ¬ ((fsS.createFile inp.tempFilePath).unlink
            inp.tempFilePath).isfile inp.tmpdir := by
          intro h
          rcases List.mem_cons.mp (unlink_files_sub h) with h' | h'
          · exact hne h'.symm
          · rcases hfilesS _ h' with h'' | h''
            · exact htd (Or.inl h'')
            · exact hp2 (h''.symm)
        have hdir2 : ((fsS.createFile inp.tempFilePath).unlink
            inp.tempFilePath).isdir inp.tmpdir := by
          show inp.tmpdir ∈ _
          rw [hd4]; exact List.mem_cons_self _ _
        have hstep2 : cleanupStep ((fsS.createFile inp.tempFilePath).unlink
            inp.tempFilePath) inp.tmpdir =
            Except.ok (((fsS.createFile inp.tempFilePath).unlink
              inp.tempFilePath).rmtree inp.tmpdir) := by
          rw [cleanupStep, if_pos hex2, if_neg hnotfile2, if_pos hdir2, rmtreeE,
            if_pos hdir2]
        refine ⟨rfl, hex1, Or.inr (by rw [show (fsS.createFile inp.tempFilePath).dirs =
            inp.tmpdir :: fs.dirs from hdirs]; exact List.mem_cons_self _ _), ?_⟩
        refine ⟨(((fsS.createFile inp.tempFilePath).unlink
            inp.tempFilePath).rmtree inp.tmpdir), ?_, ?_, ?_⟩
        · show cleanupPathsE [inp.tempFilePath, inp.tmpdir]
            (fsS.createFile inp.tempFilePath) = _
          simp [cleanupPathsE, hstep1, hstep2]
        · rintro (h | h)
          · exact hnf4 (rmtree_files_sub h)
          · have h' : inp.tempFilePath ∈ inp.tmpdir :: fs.dirs := by
              rw [← hd4]; exact rmtree_dirs_sub h
            rcases List.mem_cons.mp h' with h'' | h''
            · exact hne h''
            · exact htf (Or.inr h'')
        · exact rmtree_not_exists _ _

/-- Concrete request used by the C4 witness: a successful 10-byte download
into a fresh workspace on an empty filesystem. -/
def c4Input : DVInput :=
  ⟨"https://example.com/v", "best",
    YdlResult.success ⟨60, 0, 0, "My Title", "mp4"⟩ "/tmp/video_download_a/v.mp4" true 10,
    10, "/tmp/video_download_a", "/tmp/tmpb"⟩

/-- Witness for C4. -/
theorem workspace_cleanup_witness :
    ((∃ e, (download_video c4Input ⟨[], []⟩).result = Except.error e) →
        ¬ (download_video c4Input ⟨[], []⟩).fs.existsP c4Input.tmpdir ∧
        ¬ (download_video c4Input ⟨[], []⟩).fs.existsP c4Input.tempFilePath) ∧
    (∀ r, (download_video c4Input ⟨[], []⟩).result = Except.ok r →
        r.cleanupPaths = [c4Input.tempFilePath, c4Input.tmpdir] ∧
        (download_video c4Input ⟨[], []⟩).fs.existsP c4Input.tempFilePath ∧
        (download_video c4Input ⟨[], []⟩).fs.existsP c4Input.tmpdir ∧
        ∃ fs2, cleanupPathsE r.cleanupPaths (download_video c4Input ⟨[], []⟩).fs =
            Except.ok fs2 ∧
          ¬ fs2.existsP c4Input.tempFilePath ∧ ¬ fs2.existsP c4Input.tmpdir) :=
  workspace_cleanup c4Input ⟨[], []⟩ (by decide) (by decide) (by decide) (by decide)
    (by decide)
    (by rintro i2 p2 f2 s2 hh
        have hh2 : YdlResult.success ⟨60, 0, 0, "My Title", "mp4"⟩
            "/tmp/video_download_a/v.mp4" true 10 = YdlResult.success i2 p2 f2 s2 := hh
        cases hh2
        exact ⟨by decide, by decide⟩)
